import Mathlib

/-!
Shallow embedding of the request/response mapping and versioned write
protocol of the Zotero API client (package `zotero`), together with
theorems settling the specification claims about it.

Definitions are translated from the Go source:
  * `models.go`        — `ParentCollectionRef` and its JSON encode/decode
  * the client file    — `Client`, `joinWithOR`, `buildQueryString`
  * the read file      — `Groups`
  * `write.go`         — batch/single write validation, `DeleteTags`,
                         `UploadAttachment`, `doFileAuthRequest`,
                         `doWriteRequest`
-/

/-- A JSON wire value, as seen by Go's `encoding/json` package after
parsing.  Numbers are modelled as integers: every number appearing in the
protocol positions the claims touch (the `exists` flag) is integral. -/
inductive Json where
  | null : Json
  | bool : Bool → Json
  | num : Int → Json
  | str : String → Json
  | arr : List Json → Json
  | obj : List (String × Json) → Json

/-- First-match association-list lookup, the map read `m["k"]`. -/
def jlookup (k : String) : List (String × Json) → Option Json
  | [] => none
  | (k', v) :: rest => if k' = k then some v else jlookup k rest

/-- Result of a Go call that returns `(T, error)`: `.error` is a non-nil
Go error carrying the message. -/
abbrev GoResult (α : Type) := Except String α

/-- `true` exactly when the Go call returned a non-nil error. -/
def isErr {α : Type} : GoResult α → Bool
  | .error _ => true
  | .ok _ => false

/-! ## ParentCollectionRef (models.go)

`type ParentCollectionRef string`; the empty string means "no parent". -/

abbrev ParentCollectionRef := String

/-- `ParentCollectionRef.UnmarshalJSON` from models.go.  Go first tries
`json.Unmarshal(data, &b)` for a `bool`: that succeeds on the literals
`false` and `true`, and also on `null` (Go's decoder treats JSON `null`
into a non-pointer target as a no-op with a nil error, leaving `b` at its
zero value `false`).  On success, `false` (and hence `null`) yields the
empty reference and `true` is rejected.  Otherwise Go unmarshals into a
string, which succeeds only on a JSON string. -/
def unmarshalParentCollectionRef : Json → GoResult ParentCollectionRef
  | .bool b =>
      if !b then .ok ""
      else .error "unexpected boolean value true for parentCollection"
  | .null => .ok ""
  | .str s => .ok s
  | .num _ => .error "json: cannot unmarshal number into Go value of type string"
  | .arr _ => .error "json: cannot unmarshal array into Go value of type string"
  | .obj _ => .error "json: cannot unmarshal object into Go value of type string"

/-- `ParentCollectionRef.MarshalJSON` from models.go: the empty string
serializes as the boolean `false`, anything else as a JSON string. -/
def marshalParentCollectionRef (p : ParentCollectionRef) : Json :=
  if p = "" then .bool false else .str p

/-! ## Claim theorems: parent-collection reference -/

/-- C6: encoding an empty parent reference produces the JSON boolean
`false`; decoding the JSON boolean `false` yields the empty reference;
and for every non-empty parent key, encoding followed by decoding
returns the same key. -/
theorem parentRef_roundTrip :
    marshalParentCollectionRef "" = Json.bool false ∧
    unmarshalParentCollectionRef (Json.bool false) = .ok "" ∧
    ∀ p : ParentCollectionRef, p ≠ "" →
      unmarshalParentCollectionRef (marshalParentCollectionRef p) = .ok p := by
  refine ⟨rfl, rfl, ?_⟩
  intro p hp
  simp [marshalParentCollectionRef, unmarshalParentCollectionRef, hp]

/-- C6 witness: the round trip at the concrete key "ABCD1234". -/
theorem parentRef_roundTrip_witness :
    ("ABCD1234" : ParentCollectionRef) ≠ "" ∧
    unmarshalParentCollectionRef (marshalParentCollectionRef "ABCD1234") =
      .ok "ABCD1234" :=
  ⟨by decide, parentRef_roundTrip.2.2 "ABCD1234" (by decide)⟩

/-- C10 counterexample: the claim says every accepted wire value other
than the boolean `false` is a JSON string, but the decoder also accepts
JSON `null` (Go's `json.Unmarshal` of `null` into a `bool` is a silent
no-op), yielding the empty reference. -/
theorem parentRef_null_accepted :
    unmarshalParentCollectionRef Json.null = .ok "" ∧ Json.null ≠ Json.str "" := by
  exact ⟨rfl, by intro h; cases h⟩

/-- C10 amended: decoding the JSON boolean `true` returns an error;
`false` is the only boolean wire value accepted, and every other accepted
wire value is either a JSON string or JSON `null` (which decodes to the
empty reference). -/
theorem parentRef_true_rejected :
    isErr (unmarshalParentCollectionRef (Json.bool true)) = true ∧
    ∀ j : Json, isErr (unmarshalParentCollectionRef j) = false →
      j = Json.bool false ∨ j = Json.null ∨ ∃ s, j = Json.str s := by
  refine ⟨rfl, ?_⟩
  intro j hj
  cases j with
  | bool b => cases b with
    | false => exact Or.inl rfl
    | true => simp [unmarshalParentCollectionRef, isErr] at hj
  | null => exact Or.inr (Or.inl rfl)
  | str s => exact Or.inr (Or.inr ⟨s, rfl⟩)
  | num n => simp [unmarshalParentCollectionRef, isErr] at hj
  | arr l => simp [unmarshalParentCollectionRef, isErr] at hj
  | obj l => simp [unmarshalParentCollectionRef, isErr] at hj

/-- C10 witness: the amended classification applied to the concrete wire
value `"COLL0001"`. -/
theorem parentRef_true_rejected_witness :
    isErr (unmarshalParentCollectionRef (Json.str "COLL0001")) = false ∧
    (Json.str "COLL0001" = Json.bool false ∨ Json.str "COLL0001" = Json.null ∨
      ∃ s, Json.str "COLL0001" = Json.str s) :=
  ⟨rfl, parentRef_true_rejected.2 (Json.str "COLL0001") rfl⟩

/-! ## Request builder (client file): joinWithOR, buildQueryString -/

/-- `joinWithOR` from the client file: `result := values[0]`, then
`result += " || " + values[i]` for the remaining elements. -/
def joinWithOR : List String → String
  | [] => ""
  | v :: vs => vs.foldl (fun result x => result ++ " || " ++ x) v

/-- Spec-side formulation of the OR-join (the spec's words: elements
joined in their original order with the literal separator
`" || "`), to be compared with the source's `joinWithOR`. -/
def orJoinSpec : List String → String
  | [] => ""
  | [x] => x
  | x :: y :: xs => x ++ " || " ++ orJoinSpec (y :: xs)

theorem strAppend_assoc (a b c : String) : a ++ b ++ c = a ++ (b ++ c) := by
  cases a; cases b; cases c
  show String.mk _ = String.mk _
  rw [List.append_assoc]

theorem orJoinSpec_shift (a x : String) (xs : List String) :
    orJoinSpec ((a ++ " || " ++ x) :: xs) = a ++ " || " ++ orJoinSpec (x :: xs) := by
  cases xs with
  | nil => rfl
  | cons y ys =>
      show a ++ " || " ++ x ++ " || " ++ orJoinSpec (y :: ys)
        = a ++ " || " ++ (x ++ " || " ++ orJoinSpec (y :: ys))
      simp only [strAppend_assoc]

theorem foldl_orJoin (vs : List String) (a : String) :
    vs.foldl (fun result x => result ++ " || " ++ x) a = orJoinSpec (a :: vs) := by
  induction vs generalizing a with
  | nil => rfl
  | cons x xs ih =>
      show xs.foldl (fun result y => result ++ " || " ++ y) (a ++ " || " ++ x)
        = orJoinSpec (a :: x :: xs)
      rw [ih (a ++ " || " ++ x), orJoinSpec_shift]
      rfl

theorem joinWithOR_eq_orJoinSpec (l : List String) : joinWithOR l = orJoinSpec l := by
  cases l with
  | nil => rfl
  | cons v vs => exact foldl_orJoin vs v

/-- One hexadecimal digit, uppercase, as used by Go's `url.QueryEscape`. -/
def hexDigitUpper (n : Nat) : Char :=
  if n < 10 then Char.ofNat (48 + n) else Char.ofNat (55 + n)

/-- UTF-8 encoding of one character as a list of byte values; Go strings
are byte strings and `url.QueryEscape` works byte by byte. -/
def utf8Bytes (c : Char) : List Nat :=
  let n := c.toNat
  if n < 128 then [n]
  else if n < 2048 then [192 + n / 64, 128 + n % 64]
  else if n < 65536 then [224 + n / 4096, 128 + (n / 64) % 64, 128 + n % 64]
  else [240 + n / 262144, 128 + (n / 4096) % 64, 128 + (n / 64) % 64, 128 + n % 64]

/-- Bytes Go's `url.QueryEscape` leaves unescaped: ASCII alphanumerics
and `-`, `_`, `.`, `~`. -/
def isUnreservedByte (b : Nat) : Bool :=
  (65 ≤ b && b ≤ 90) || (97 ≤ b && b ≤ 122) || (48 ≤ b && b ≤ 57) ||
    b = 45 || b = 95 || b = 46 || b = 126

/-- Go's `url.QueryEscape` on one byte: unreserved bytes pass through,
a space becomes `+`, everything else becomes `%XX` with uppercase hex. -/
def escapeByte (b : Nat) : String :=
  if isUnreservedByte b then String.singleton (Char.ofNat b)
  else if b = 32 then "+"
  else "%" ++ String.singleton (hexDigitUpper (b / 16)) ++
    String.singleton (hexDigitUpper (b % 16))

/-- Go's `url.QueryEscape` applied to a whole string. -/
def queryEscape (s : String) : String :=
  String.join ((s.data.foldr (fun c acc => utf8Bytes c ++ acc) []).map escapeByte)

/-- `QueryParams` from the read-operations file.  `includeData` renders
the Go field `Include` (`include` is reserved in Lean). -/
structure QueryParams where
  limit : Int := 0
  start : Int := 0
  sort : String := ""
  format : String := ""
  includeData : String := ""
  style : String := ""
  q : String := ""
  qmode : String := ""
  tag : List String := []
  itemKey : List String := []
  itemType : List String := []
  since : Int := 0
  extra : List (String × String) := []

/-- `url.Values.Set`: replace any existing entries for the key with the
single given value.  `url.Values` is a map, so entry order is irrelevant
(Encode sorts the keys); keys stay unique under this operation. -/
def valuesSet (vs : List (String × String)) (k v : String) : List (String × String) :=
  vs.filter (fun p => p.1 ≠ k) ++ [(k, v)]

/-- First-match lookup in a key/value list (`url.Values` map read). -/
def lookupStr (k : String) : List (String × String) → Option String
  | [] => none
  | (k', v) :: rest => if k' = k then some v else lookupStr k rest

/-- The `url.Values` built by `buildQueryString`, before encoding: each
parameter is set only under its source condition, multi-valued filters
are OR- or comma-joined, and the extra map is applied last. -/
def buildPairs (p : QueryParams) : List (String × String) :=
  let vs : List (String × String) := []
  let vs := if p.limit > 0 then valuesSet vs "limit" (toString p.limit) else vs
  let vs := if p.start > 0 then valuesSet vs "start" (toString p.start) else vs
  let vs := if p.sort ≠ "" then valuesSet vs "sort" p.sort else vs
  let vs := if p.format ≠ "" then valuesSet vs "format" p.format else vs
  let vs := if p.includeData ≠ "" then valuesSet vs "include" p.includeData else vs
  let vs := if p.style ≠ "" then valuesSet vs "style" p.style else vs
  let vs := if p.q ≠ "" then valuesSet vs "q" p.q else vs
  let vs := if p.qmode ≠ "" then valuesSet vs "qmode" p.qmode else vs
  let vs := if p.since > 0 then valuesSet vs "since" (toString p.since) else vs
  let vs := if p.tag ≠ [] then valuesSet vs "tag" (joinWithOR p.tag) else vs
  let vs := match p.itemKey with
    | [] => vs
    | k0 :: ks => valuesSet vs "itemKey" (ks.foldl (fun acc x => acc ++ "," ++ x) k0)
  let vs := if p.itemType ≠ [] then valuesSet vs "itemType" (joinWithOR p.itemType) else vs
  p.extra.foldl (fun acc kv => valuesSet acc kv.1 kv.2) vs

/-- Lexicographic comparison of character lists by code point, the
order `sort.Strings` uses on the keys of `url.Values.Encode` (for UTF-8
strings, byte order and code-point order agree). -/
def strLeb : List Char → List Char → Bool
  | [], _ => true
  | _ :: _, [] => false
  | a :: as, b :: bs =>
      if a.toNat < b.toNat then true
      else if b.toNat < a.toNat then false
      else strLeb as bs

theorem strLeb_total : ∀ as bs, strLeb as bs = true ∨ strLeb bs as = true
  | [], _ => Or.inl rfl
  | _ :: _, [] => Or.inr rfl
  | a :: as, b :: bs => by
      rcases Nat.lt_trichotomy a.toNat b.toNat with h | h | h
      · left; simp [strLeb, h]
      · rcases strLeb_total as bs with ih | ih
        · left; simp [strLeb, h, ih]
        · right; simp [strLeb, h.symm, ih]
      · right; simp [strLeb, h]

theorem strLeb_trans : ∀ as bs cs, strLeb as bs = true → strLeb bs cs = true →
    strLeb as cs = true
  | [], _, _, _, _ => rfl
  | a :: as, [], _, h1, _ => by simp [strLeb] at h1
  | _ :: _, _ :: _, [], _, h2 => by simp [strLeb] at h2
  | a :: as, b :: bs, c :: cs, h1, h2 => by
      simp only [strLeb] at h1 h2 ⊢
      have hab : a.toNat ≤ b.toNat := by
        by_cases h : a.toNat < b.toNat
        · omega
        · by_cases h' : b.toNat < a.toNat
          · simp [h, h'] at h1
          · omega
      have hbc : b.toNat ≤ c.toNat := by
        by_cases h : b.toNat < c.toNat
        · omega
        · by_cases h' : c.toNat < b.toNat
          · simp [h, h'] at h2
          · omega
      by_cases hac : a.toNat < c.toNat
      · simp [hac]
      · have hca : ¬ c.toNat < a.toNat := by omega
        simp [hac, hca]
        have e1 : ¬ a.toNat < b.toNat := by omega
        have e2 : ¬ b.toNat < a.toNat := by omega
        have e3 : ¬ b.toNat < c.toNat := by omega
        have e4 : ¬ c.toNat < b.toNat := by omega
        simp [e1, e2] at h1
        simp [e3, e4] at h2
        exact strLeb_trans as bs cs h1 h2

/-- Ordering of encoded query parameters: by key, the order
`url.Values.Encode` sorts with. -/
def keyLE (a b : String × String) : Prop := strLeb a.1.data b.1.data = true

instance : DecidableRel keyLE := fun a b =>
  inferInstanceAs (Decidable (strLeb a.1.data b.1.data = true))

instance : IsTotal (String × String) keyLE := ⟨fun a b => strLeb_total a.1.data b.1.data⟩

instance : IsTrans (String × String) keyLE :=
  ⟨fun a b c h h' => strLeb_trans a.1.data b.1.data c.1.data h h'⟩

/-- `url.Values.Encode`: sort the entries by key, percent-encode keys
and values, join as `k=v` pairs with `&`. -/
def valuesEncode (vs : List (String × String)) : String :=
  String.intercalate "&"
    ((List.insertionSort keyLE vs).map (fun kv => queryEscape kv.1 ++ "=" ++ queryEscape kv.2))

/-- `buildQueryString` from the client file: empty for nil params,
otherwise `?` plus the encoded values when non-empty. -/
def buildQueryString : Option QueryParams → String
  | none => ""
  | some p =>
      let query := valuesEncode (buildPairs p)
      if query ≠ "" then "?" ++ query else ""

theorem lookupStr_valuesSet_self : ∀ (vs : List (String × String)) (k v : String),
    lookupStr k (valuesSet vs k v) = some v
  | [], k, v => by
      show lookupStr k [(k, v)] = some v
      simp [lookupStr]
  | (k', v') :: vs, k, v => by
      by_cases hk : k' = k
      · have h : valuesSet ((k', v') :: vs) k v = valuesSet vs k v := by
          simp [valuesSet, List.filter_cons, hk]
        rw [h]
        exact lookupStr_valuesSet_self vs k v
      · have h : valuesSet ((k', v') :: vs) k v = (k', v') :: valuesSet vs k v := by
          simp [valuesSet, List.filter_cons, hk]
        rw [h]
        show (if k' = k then some v' else lookupStr k (valuesSet vs k v)) = some v
        rw [if_neg hk]
        exact lookupStr_valuesSet_self vs k v

/-! ## Claim theorems: request builder -/

/-- C8: `url.Values.Encode` emits the parameter pairs sorted by key
(exactly the given pairs, in alphabetical key order, each key and value
percent-encoded), and the parameter set limit=10, start=20, sort=title
produces exactly `?limit=10&sort=title&start=20`. -/
theorem buildQueryString_sortedKeys :
    (∀ vs : List (String × String),
      List.Sorted keyLE (List.insertionSort keyLE vs) ∧
      (List.insertionSort keyLE vs).Perm vs) ∧
    buildQueryString (some { limit := 10, start := 20, sort := "title" }) =
      "?limit=10&sort=title&start=20" :=
  ⟨fun vs => ⟨List.sorted_insertionSort keyLE vs, List.perm_insertionSort keyLE vs⟩,
    by decide⟩

/-- C9: `joinWithOR` joins the elements in their original order with the
literal separator `" || "` (elements, exclusion entries included, pass
through verbatim); for every parameter set with a non-empty item-type
filter (and no extra parameters overriding it) the `itemType` value in
the built query parameters is exactly that join; and the example list
journalArticle, book, -annotation yields the expected string. -/
theorem itemType_joinWithOR :
    (∀ l : List String, joinWithOR l = orJoinSpec l) ∧
    (∀ p : QueryParams, p.itemType ≠ [] → p.extra = [] →
      lookupStr "itemType" (buildPairs p) = some (joinWithOR p.itemType)) ∧
    joinWithOR ["journalArticle", "book", "-annotation"] =
      "journalArticle || book || -annotation" := by
  refine ⟨joinWithOR_eq_orJoinSpec, ?_, by decide⟩
  intro p hIT hex
  unfold buildPairs
  rw [hex]
  simp only [List.foldl_nil]
  rw [if_pos hIT]
  exact lookupStr_valuesSet_self _ _ _

/-- C9 witness: the itemType parameter at a concrete parameter set. -/
theorem itemType_joinWithOR_witness :
    lookupStr "itemType"
      (buildPairs { itemType := ["journalArticle", "book", "-annotation"] }) =
      some (joinWithOR ["journalArticle", "book", "-annotation"]) :=
  itemType_joinWithOR.2.1
    { itemType := ["journalArticle", "book", "-annotation"] }
    (by decide) rfl

/-! ## Groups (read-operations file) -/

/-- Configuration fields of `Client` that the claims depend on.
`libraryType` holds the Go `LibraryType` string: "users" or "groups". -/
structure Client where
  baseURL : String := "https://api.zotero.org"
  libraryID : String := ""
  libraryType : String := "users"
  apiKey : String := ""

def LibraryTypeUser : String := "users"

def LibraryTypeGroup : String := "groups"

/-- `Groups` from the read-operations file, up to the network exchange:
a non-user library type is rejected with a configuration error before
any request is built or issued; otherwise the request URL is the
user-keyed groups root `{base}/users/{id}/groups` (hard-coded, not the
generic `{base}/{libraryType}/{id}` prefix `doRequest` builds). -/
def groupsRequest (c : Client) (params : Option QueryParams) : GoResult String :=
  if c.libraryType ≠ LibraryTypeUser then
    .error "groups() requires user library type"
  else
    .ok (c.baseURL ++ "/users/" ++ c.libraryID ++ "/groups" ++ buildQueryString params)

/-- C7: for every client whose library type is not the user type,
`Groups` returns the configuration error with no request URL ever built
(the model errors before the URL construction, as the source returns
before any network call); for user-type clients the URL addressed is the
user-keyed groups root. -/
theorem groups_userOnly :
    (∀ (c : Client) (params : Option QueryParams), c.libraryType ≠ LibraryTypeUser →
      groupsRequest c params = .error "groups() requires user library type") ∧
    (∀ (c : Client) (params : Option QueryParams), c.libraryType = LibraryTypeUser →
      groupsRequest c params =
        .ok (c.baseURL ++ "/users/" ++ c.libraryID ++ "/groups" ++ buildQueryString params)) := by
  constructor
  · intro c params h
    simp [groupsRequest, h]
  · intro c params h
    simp [groupsRequest, h, LibraryTypeUser]

/-- C7 witness: a group-type client is rejected; a user-type client with
library id 12345 addresses the user-keyed groups root. -/
theorem groups_userOnly_witness :
    groupsRequest { libraryID := "67890", libraryType := "groups" } none =
      .error "groups() requires user library type" ∧
    groupsRequest { libraryID := "12345" } none =
      .ok "https://api.zotero.org/users/12345/groups" :=
  ⟨groups_userOnly.1 { libraryID := "67890", libraryType := "groups" } none (by decide),
    groups_userOnly.2 { libraryID := "12345" } none rfl⟩

/-! ## Write operations (write.go) -/

/-- The request `doWriteRequest` issues, as far as the claims observe
it: method, path, whether a JSON body is attached, and the
If-Unmodified-Since-Version header, which `doWriteRequest` sets only
when version > 0. -/
structure WritePlan where
  method : String
  path : String
  hasBody : Bool
  versionHeader : Option Int
deriving DecidableEq

/-- Build the write request (`doWriteRequest`'s header rule). -/
def writePlan (method path : String) (hasBody : Bool) (version : Int) : WritePlan :=
  { method := method, path := path, hasBody := hasBody,
    versionHeader := if version > 0 then some version else none }

/-- The envelope- and data-level key/version of an `Item`, `Collection`
or `Search` — the fields the write validation reads.  The payload body
is not observed by any claim. -/
structure WriteStub where
  key : String := ""
  version : Int := 0
  dataKey : String := ""
  dataVersion : Int := 0

/-- `UpdateItem` (write.go) up to the network call.  The nil check is
vacuous in a by-value model.  The key must be present at envelope or
data level; the version is resolved (envelope first) but never
validated: a zero resolved version merely omits the version header. -/
def updateItem (item : WriteStub) : GoResult WritePlan :=
  if item.key = "" ∧ item.dataKey = "" then .error "item key is required"
  else
    let key := if item.key = "" then item.dataKey else item.key
    let version := if item.version = 0 then item.dataVersion else item.version
    .ok (writePlan "PATCH" ("/items/" ++ key) true version)

/-- `UpdateCollection` (write.go) up to the network call; same shape as
`updateItem`. -/
def updateCollection (coll : WriteStub) : GoResult WritePlan :=
  if coll.key = "" ∧ coll.dataKey = "" then .error "collection key is required"
  else
    let key := if coll.key = "" then coll.dataKey else coll.key
    let version := if coll.version = 0 then coll.dataVersion else coll.version
    .ok (writePlan "PATCH" ("/collections/" ++ key) true version)

/-- `UpdateSearch` (write.go) up to the network call; same shape as
`updateItem`. -/
def updateSearch (search : WriteStub) : GoResult WritePlan :=
  if search.key = "" ∧ search.dataKey = "" then .error "search key is required"
  else
    let key := if search.key = "" then search.dataKey else search.key
    let version := if search.version = 0 then search.dataVersion else search.version
    .ok (writePlan "PATCH" ("/searches/" ++ key) true version)

/-- The per-element loop of `UpdateItems`: resolve key and version
(envelope first), rejecting the whole batch at the first element missing
either; on success the `key`/`version` fields injected per element. -/
def updateItemsData : Nat → List WriteStub → GoResult (List (String × Int))
  | _, [] => .ok []
  | i, item :: rest =>
      let key := if item.key = "" then item.dataKey else item.key
      let version := if item.version = 0 then item.dataVersion else item.version
      if key = "" then .error ("item " ++ toString i ++ " missing key")
      else if version = 0 then .error ("item " ++ toString i ++ " missing version")
      else
        match updateItemsData (i + 1) rest with
        | .error e => .error e
        | .ok tail => .ok ((key, version) :: tail)

/-- `UpdateItems` (write.go) up to the network call: size checks, then
the per-element validation, then a POST with no version header. -/
def updateItems (items : List WriteStub) : GoResult WritePlan :=
  if items.length = 0 then .error "no items provided"
  else if items.length > 50 then
    .error ("maximum 50 items per request, got " ++ toString items.length)
  else
    match updateItemsData 0 items with
    | .error e => .error e
    | .ok _ => .ok (writePlan "POST" "/items" true 0)

/-- The per-element loop of `UpdateCollections`, mirror of
`updateItemsData`. -/
def updateCollectionsData : Nat → List WriteStub → GoResult (List (String × Int))
  | _, [] => .ok []
  | i, coll :: rest =>
      let key := if coll.key = "" then coll.dataKey else coll.key
      let version := if coll.version = 0 then coll.dataVersion else coll.version
      if key = "" then .error ("collection " ++ toString i ++ " missing key")
      else if version = 0 then .error ("collection " ++ toString i ++ " missing version")
      else
        match updateCollectionsData (i + 1) rest with
        | .error e => .error e
        | .ok tail => .ok ((key, version) :: tail)

/-- `UpdateCollections` (write.go) up to the network call. -/
def updateCollections (collections : List WriteStub) : GoResult WritePlan :=
  if collections.length = 0 then .error "no collections provided"
  else if collections.length > 50 then
    .error ("maximum 50 collections per request, got " ++ toString collections.length)
  else
    match updateCollectionsData 0 collections with
    | .error e => .error e
    | .ok _ => .ok (writePlan "POST" "/collections" true 0)

/-- `CreateItems` (write.go) up to the network call: size checks, then a
POST of the data payloads with no version header. -/
def createItems (items : List WriteStub) : GoResult WritePlan :=
  if items.length = 0 then .error "no items provided"
  else if items.length > 50 then
    .error ("maximum 50 items per request, got " ++ toString items.length)
  else .ok (writePlan "POST" "/items" true 0)

/-- `CreateCollections` (write.go) up to the network call. -/
def createCollections (collections : List WriteStub) : GoResult WritePlan :=
  if collections.length = 0 then .error "no collections provided"
  else if collections.length > 50 then
    .error ("maximum 50 collections per request, got " ++ toString collections.length)
  else .ok (writePlan "POST" "/collections" true 0)

/-- `CreateSearches` (write.go) up to the network call. -/
def createSearches (searches : List WriteStub) : GoResult WritePlan :=
  if searches.length = 0 then .error "no searches provided"
  else if searches.length > 50 then
    .error ("maximum 50 searches per request, got " ++ toString searches.length)
  else .ok (writePlan "POST" "/searches" true 0)

/-- `DeleteItems` (write.go) up to the network call: size checks, a
required version, then a DELETE with the keys comma-joined into the
`itemKey` query parameter. -/
def deleteItems (itemKeys : List String) (version : Int) : GoResult WritePlan :=
  if itemKeys.length = 0 then .error "no item keys provided"
  else if itemKeys.length > 50 then
    .error ("maximum 50 items per request, got " ++ toString itemKeys.length)
  else if version = 0 then .error "version is required for delete operations"
  else .ok (writePlan "DELETE" ("/items?itemKey=" ++ String.intercalate "," itemKeys) false version)

/-- `DeleteCollections` (write.go) up to the network call. -/
def deleteCollections (collectionKeys : List String) (version : Int) : GoResult WritePlan :=
  if collectionKeys.length = 0 then .error "no collection keys provided"
  else if collectionKeys.length > 50 then
    .error ("maximum 50 collections per request, got " ++ toString collectionKeys.length)
  else if version = 0 then .error "version is required for delete operations"
  else .ok (writePlan "DELETE"
    ("/collections?collectionKey=" ++ String.intercalate "," collectionKeys) false version)

/-- `DeleteSearches` (write.go) up to the network call. -/
def deleteSearches (searchKeys : List String) (version : Int) : GoResult WritePlan :=
  if searchKeys.length = 0 then .error "no search keys provided"
  else if searchKeys.length > 50 then
    .error ("maximum 50 searches per request, got " ++ toString searchKeys.length)
  else if version = 0 then .error "version is required for delete operations"
  else .ok (writePlan "DELETE"
    ("/searches?searchKey=" ++ String.intercalate "," searchKeys) false version)

/-- `DeleteTags` (write.go).  The source allocates
`encodedTags := make([]string, len(tags))` (a slice of empty strings)
and then calls `copy(tags, encodedTags)` — Go's `copy` takes the
DESTINATION first, so this overwrites the local `tags` slice with empty
strings and leaves `encodedTags` all-empty; the path is built by joining
`encodedTags` with "&tag=", so the tag names never reach the request. -/
def deleteTags (version : Int) (tags : List String) : GoResult WritePlan :=
  if tags.length = 0 then .error "no tags provided"
  else if version = 0 then .error "version is required for delete operations"
  else
    let encodedTags := List.replicate tags.length ""
    .ok (writePlan "DELETE" ("/tags?tag=" ++ String.intercalate "&tag=" encodedTags)
      false version)

/-- Does the second character list begin with the first? -/
def leadsWith : List Char → List Char → Bool
  | [], _ => true
  | _ :: _, [] => false
  | a :: as, b :: bs => a = b && leadsWith as bs

/-- Does `needle` occur contiguously anywhere in the second list? -/
def occursIn (needle : List Char) : List Char → Bool
  | [] => needle.isEmpty
  | c :: cs => leadsWith needle (c :: cs) || occursIn needle cs

/-! ## Claim theorems: write validation -/

/-- C1 counterexample: an update argument carrying key "ABCD1234" (resp.
"COLL1234", "SRCH1234") and version 0 in both the envelope-level and the
data-level field is NOT rejected — each single-update call proceeds to
issue the PATCH request (reaching `doWriteRequest`), merely omitting the
If-Unmodified-Since-Version header. -/
theorem updateZeroVersion_notRejected :
    updateItem { key := "ABCD1234" } =
      .ok { method := "PATCH", path := "/items/ABCD1234", hasBody := true,
            versionHeader := none } ∧
    updateCollection { key := "COLL1234" } =
      .ok { method := "PATCH", path := "/collections/COLL1234", hasBody := true,
            versionHeader := none } ∧
    updateSearch { key := "SRCH1234" } =
      .ok { method := "PATCH", path := "/searches/SRCH1234", hasBody := true,
            versionHeader := none } :=
  ⟨rfl, rfl, rfl⟩

theorem updateItemsData_memZero (s : WriteStub) (hv : s.version = 0)
    (hdv : s.dataVersion = 0) :
    ∀ (i : Nat) (xs : List WriteStub), s ∈ xs → isErr (updateItemsData i xs) = true
  | _, [], h => absurd h (List.not_mem_nil s)
  | i, x :: xs, h => by
      simp only [updateItemsData]
      by_cases hk : (if x.key = "" then x.dataKey else x.key) = ""
      · simp [hk, isErr]
      · by_cases hver : (if x.version = 0 then x.dataVersion else x.version) = 0
        · simp [hk, hver, isErr]
        · rcases List.mem_cons.mp h with rfl | hmem
          · exact absurd (by simp [hv, hdv]) hver
          · cases hE : updateItemsData (i + 1) xs with
            | error e => simp [hk, hver, hE, isErr]
            | ok l =>
                have hrec := updateItemsData_memZero s hv hdv (i + 1) xs hmem
                rw [hE] at hrec
                simp [isErr] at hrec

theorem updateCollectionsData_memZero (s : WriteStub) (hv : s.version = 0)
    (hdv : s.dataVersion = 0) :
    ∀ (i : Nat) (xs : List WriteStub), s ∈ xs → isErr (updateCollectionsData i xs) = true
  | _, [], h => absurd h (List.not_mem_nil s)
  | i, x :: xs, h => by
      simp only [updateCollectionsData]
      by_cases hk : (if x.key = "" then x.dataKey else x.key) = ""
      · simp [hk, isErr]
      · by_cases hver : (if x.version = 0 then x.dataVersion else x.version) = 0
        · simp [hk, hver, isErr]
        · rcases List.mem_cons.mp h with rfl | hmem
          · exact absurd (by simp [hv, hdv]) hver
          · cases hE : updateCollectionsData (i + 1) xs with
            | error e => simp [hk, hver, hE, isErr]
            | ok l =>
                have hrec := updateCollectionsData_memZero s hv hdv (i + 1) xs hmem
                rw [hE] at hrec
                simp [isErr] at hrec

/-- C1 amended: the batch update calls (`UpdateItems`,
`UpdateCollections`) reject a batch containing any element whose
envelope-level and data-level versions are both zero, with an error
before any network request; the single update calls (`UpdateItem`,
`UpdateCollection`, `UpdateSearch`) perform no version validation — with
both versions zero they still issue the request, with no
If-Unmodified-Since-Version header (`writePlan … 0` has
`versionHeader = none`). -/
theorem updateCalls_versionPolicy (s : WriteStub) (xs : List WriteStub)
    (hv : s.version = 0) (hdv : s.dataVersion = 0) :
    (s ∈ xs → isErr (updateItems xs) = true ∧ isErr (updateCollections xs) = true) ∧
    (s.key ≠ "" →
      updateItem s = .ok (writePlan "PATCH" ("/items/" ++ s.key) true 0) ∧
      updateCollection s = .ok (writePlan "PATCH" ("/collections/" ++ s.key) true 0) ∧
      updateSearch s = .ok (writePlan "PATCH" ("/searches/" ++ s.key) true 0)) := by
  constructor
  · intro hmem
    constructor
    · unfold updateItems
      by_cases h0 : xs.length = 0
      · simp [h0, isErr]
      · by_cases h50 : xs.length > 50
        · simp [h0, h50, isErr]
        · have herr := updateItemsData_memZero s hv hdv 0 xs hmem
          cases hE : updateItemsData 0 xs with
          | error e => simp [h0, h50, hE, isErr]
          | ok l => rw [hE] at herr; simp [isErr] at herr
    · unfold updateCollections
      by_cases h0 : xs.length = 0
      · simp [h0, isErr]
      · by_cases h50 : xs.length > 50
        · simp [h0, h50, isErr]
        · have herr := updateCollectionsData_memZero s hv hdv 0 xs hmem
          cases hE : updateCollectionsData 0 xs with
          | error e => simp [h0, h50, hE, isErr]
          | ok l => rw [hE] at herr; simp [isErr] at herr
  · intro hk
    have hand : ¬ (s.key = "" ∧ s.dataKey = "") := fun hc => hk hc.1
    refine ⟨?_, ?_, ?_⟩
    · simp [updateItem, hand, hk, hv, hdv]
    · simp [updateCollection, hand, hk, hv, hdv]
    · simp [updateSearch, hand, hk, hv, hdv]

/-- C1 amended witness: a batch holding one version-less element is
rejected, while the single update at the same element issues the
request. -/
theorem updateCalls_versionPolicy_witness :
    (isErr (updateItems [{ key := "ABCD1234" }]) = true ∧
      isErr (updateCollections [{ key := "ABCD1234" }]) = true) ∧
    updateItem { key := "ABCD1234" } =
      .ok (writePlan "PATCH" "/items/ABCD1234" true 0) :=
  ⟨(updateCalls_versionPolicy { key := "ABCD1234" } [{ key := "ABCD1234" }]
      rfl rfl).1 (List.mem_singleton.mpr rfl),
    ((updateCalls_versionPolicy { key := "ABCD1234" } [{ key := "ABCD1234" }]
      rfl rfl).2 (by decide)).1⟩

/-- C4: every batch write operation rejects a batch of 0 elements and a
batch of 51 or more elements with an error before any network request
(the model errors before constructing the `writePlan`), and a batch of
exactly 50 elements passes the size check (with otherwise valid
arguments the call reaches the network request). -/
theorem batchSizeLimits (xs : List WriteStub) (ks : List String) (v : Int) :
    (xs.length = 0 ∨ 51 ≤ xs.length →
      isErr (createItems xs) = true ∧ isErr (updateItems xs) = true ∧
      isErr (createCollections xs) = true ∧ isErr (updateCollections xs) = true ∧
      isErr (createSearches xs) = true) ∧
    (ks.length = 0 ∨ 51 ≤ ks.length →
      isErr (deleteItems ks v) = true ∧ isErr (deleteCollections ks v) = true ∧
      isErr (deleteSearches ks v) = true) ∧
    (isErr (createItems (List.replicate 50 {})) = false ∧
      isErr (updateItems (List.replicate 50 { key := "K", version := 1 })) = false ∧
      isErr (deleteItems (List.replicate 50 "K") 1) = false ∧
      isErr (createCollections (List.replicate 50 {})) = false ∧
      isErr (updateCollections (List.replicate 50 { key := "K", version := 1 })) = false ∧
      isErr (deleteCollections (List.replicate 50 "K") 1) = false ∧
      isErr (createSearches (List.replicate 50 {})) = false ∧
      isErr (deleteSearches (List.replicate 50 "K") 1) = false) := by
  refine ⟨?_, ?_, by decide⟩
  · intro h
    rcases h with h0 | h51
    · simp [createItems, updateItems, createCollections, updateCollections,
        createSearches, h0, isErr]
    · have hne : ¬ xs.length = 0 := by omega
      have hgt : xs.length > 50 := by omega
      simp [createItems, updateItems, createCollections, updateCollections,
        createSearches, hne, hgt, isErr]
  · intro h
    rcases h with h0 | h51
    · simp [deleteItems, deleteCollections, deleteSearches, h0, isErr]
    · have hne : ¬ ks.length = 0 := by omega
      have hgt : ks.length > 50 := by omega
      simp [deleteItems, deleteCollections, deleteSearches, hne, hgt, isErr]

/-- C4 witness: the size limits at concrete batches of 0 and 51. -/
theorem batchSizeLimits_witness :
    isErr (createItems ([] : List WriteStub)) = true ∧
    isErr (deleteItems (List.replicate 51 "K") 1) = true :=
  ⟨((batchSizeLimits [] [] 1).1 (Or.inl rfl)).1,
    ((batchSizeLimits [] (List.replicate 51 "K") 1).2.1 (Or.inr (by decide))).1⟩

/-- C5: `DeleteTags` at version 1 with tags ["foo"] (resp.
["foo", "bar"]) issues DELETE with path "/tags?tag=" (resp.
"/tags?tag=&tag="): the reversed `copy` drops the tag names, so neither
"foo" nor "bar" occurs anywhere in the request path, contradicting both
the claim and the function's own documentation ("deletes tags from the
library by name", "URL encode the tags"). -/
theorem deleteTags_dropsNames :
    deleteTags 1 ["foo"] =
      .ok { method := "DELETE", path := "/tags?tag=", hasBody := false,
            versionHeader := some 1 } ∧
    deleteTags 1 ["foo", "bar"] =
      .ok { method := "DELETE", path := "/tags?tag=&tag=", hasBody := false,
            versionHeader := some 1 } ∧
    occursIn "foo".data "/tags?tag=&tag=".data = false ∧
    occursIn "bar".data "/tags?tag=&tag=".data = false :=
  ⟨rfl, rfl, by decide, by decide⟩

/-! ## Attachment upload orchestrator (write.go) -/

/-- One storage/API HTTP exchange as the model observes it: `none` is a
transport failure (no response), `some (status, body)` a received
response. -/
abbrev HttpReply := Option (Nat × String)

/-- Outcome classification of `doFileAuthRequest` (write.go): a
transport failure is an error with no response; a received response
errors exactly when its status is ≥ 400, otherwise the body is
returned. -/
def fileAuthClassify (reply : HttpReply) : GoResult (Nat × String) :=
  match reply with
  | none => .error "error executing request"
  | some (st, body) =>
      if st ≥ 400 then
        .error ("API error: " ++ body ++ " (status " ++ toString st ++ ")")
      else .ok (st, body)

/-- The conditional header `doFileAuthRequest` sets from its
`(ifNoneMatch, ifMatch)` arguments: If-None-Match takes priority when
non-empty, else If-Match when non-empty. -/
def fileAuthHeader (ifNoneMatch ifMatch : String) : List (String × String) :=
  if ifNoneMatch ≠ "" then [("If-None-Match", ifNoneMatch)]
  else if ifMatch ≠ "" then [("If-Match", ifMatch)]
  else []

/-- Step 2 of `UploadAttachment` (write.go): the first authorization
request is issued with arguments `("*", "")` (header If-None-Match: *).
If it returned an error with a non-nil response whose status is 412,
exactly one further request is issued with arguments `("", md5String)`
(header If-Match: md5) and its outcome is final; otherwise the first
outcome is final.  `oracle` maps the `(ifNoneMatch, ifMatch)` arguments
to the network reply; the result pairs the list of issued requests (by
their header arguments, in order) with the step outcome. -/
def authPhase (md5String : String) (oracle : String → String → HttpReply) :
    List (String × String) × GoResult (Nat × String) :=
  let r1 := oracle "*" ""
  match r1 with
  | some (st, _) =>
      if st ≥ 400 then
        if st = 412 then
          ([("*", ""), ("", md5String)], fileAuthClassify (oracle "" md5String))
        else ([("*", "")], fileAuthClassify r1)
      else ([("*", "")], fileAuthClassify r1)
  | none => ([("*", "")], fileAuthClassify r1)

/-! ## Claim theorems: upload authorization -/

/-- C2 counterexample: a 304 authorization response is not 2xx, yet the
upload is NOT aborted — `doFileAuthRequest` errors only on status ≥ 400,
so the phase succeeds and the orchestrator continues. -/
theorem authPhase_304_noAbort :
    authPhase "d41d8cd98f00b204e9800998ecf8427e" (fun _ _ => some (304, "{}")) =
      ([("*", "")], .ok (304, "{}")) ∧
    ¬ (200 ≤ 304 ∧ 304 ≤ 299) :=
  ⟨rfl, by decide⟩

/-- C2 amended: the first authorization request carries
If-None-Match: *; exactly one further request is issued iff the first
received response has status 412, and it carries If-Match: md5 and no
If-None-Match header; any received authorization response with status
≥ 400 — other than the first 412, which triggers the single fallback —
aborts the phase with an error, a status < 400 succeeds, and no request
beyond the single fallback is ever issued. -/
theorem authPhase_retryPolicy (md5String : String)
    (oracle : String → String → HttpReply) (hmd5 : md5String ≠ "") :
    fileAuthHeader "*" "" = [("If-None-Match", "*")] ∧
    fileAuthHeader "" md5String = [("If-Match", md5String)] ∧
    (authPhase md5String oracle).1.head? = some ("*", "") ∧
    ((authPhase md5String oracle).1 = [("*", ""), ("", md5String)] ↔
      ∃ body, oracle "*" "" = some (412, body)) ∧
    ((authPhase md5String oracle).1 = [("*", "")] ∨
      (authPhase md5String oracle).1 = [("*", ""), ("", md5String)]) ∧
    (∀ st body, oracle "*" "" = some (st, body) → 400 ≤ st → st ≠ 412 →
      isErr (authPhase md5String oracle).2 = true) ∧
    (∀ st body, oracle "*" "" = some (st, body) → st < 400 →
      (authPhase md5String oracle).2 = .ok (st, body)) ∧
    (∀ body st2 body2, oracle "*" "" = some (412, body) →
      oracle "" md5String = some (st2, body2) →
      (400 ≤ st2 → isErr (authPhase md5String oracle).2 = true) ∧
      (st2 < 400 → (authPhase md5String oracle).2 = .ok (st2, body2))) := by
  refine ⟨by simp [fileAuthHeader], by simp [fileAuthHeader, hmd5], ?_, ?_, ?_, ?_, ?_, ?_⟩
  · unfold authPhase
    cases h1 : oracle "*" "" with
    | none => rfl
    | some p =>
        obtain ⟨st, body⟩ := p
        by_cases h4 : st ≥ 400
        · by_cases h412 : st = 412
          · simp [h4, h412]
          · simp [h4, h412]
        · simp [h4]
  · unfold authPhase
    cases h1 : oracle "*" "" with
    | none => simp
    | some p =>
        obtain ⟨st, body⟩ := p
        by_cases h412 : st = 412
        · subst h412
          constructor
          · intro _
            exact ⟨body, rfl⟩
          · intro _
            rfl
        · constructor
          · intro hlist
            exfalso
            by_cases h4 : st ≥ 400
            · simp [h4, h412] at hlist
            · simp [h4] at hlist
          · rintro ⟨b, hb⟩
            injection hb with h
            injection h with ha hb'
            exact absurd ha h412
  · unfold authPhase
    cases h1 : oracle "*" "" with
    | none => exact Or.inl rfl
    | some p =>
        obtain ⟨st, body⟩ := p
        by_cases h4 : st ≥ 400
        · by_cases h412 : st = 412
          · simp [h4, h412]
          · simp [h4, h412]
        · simp [h4]
  · intro st body h1 h4 h412
    unfold authPhase
    rw [h1]
    simp [h4, h412, fileAuthClassify, isErr]
  · intro st body h1 h4
    unfold authPhase
    rw [h1]
    simp [show ¬ st ≥ 400 by omega, fileAuthClassify]
  · intro body st2 body2 h1 h2
    unfold authPhase
    rw [h1]
    simp only [show (412 : Nat) ≥ 400 by omega, if_true, if_pos rfl]
    constructor
    · intro h4
      rw [h2]
      simp [fileAuthClassify, show st2 ≥ 400 by omega, isErr]
    · intro h4
      rw [h2]
      simp [fileAuthClassify, show ¬ st2 ≥ 400 by omega]

/-- C2 amended witness: with an oracle answering 412 to the first
request, the phase issues exactly the two requests, the second with the
If-Match arguments. -/
theorem authPhase_retryPolicy_witness :
    (authPhase "0123456789abcdef0123456789abcdef"
      (fun inm _ => if inm = "*" then some (412, "precondition failed")
        else some (200, "ok"))).1 =
      [("*", ""), ("", "0123456789abcdef0123456789abcdef")] :=
  (authPhase_retryPolicy "0123456789abcdef0123456789abcdef"
    (fun inm _ => if inm = "*" then some (412, "precondition failed")
      else some (200, "ok"))
    (by decide)).2.2.2.1.mpr ⟨"precondition failed", rfl⟩

/-- Continuation decision of `UploadAttachment` after parsing the
authorization response body. -/
inductive UploadNext where
  | fetchExisting (itemKey : String)
  | proceed (uploadURL : String) (uploadParams : List (String × Json))
  | fail (msg : String)

/-- Extraction of the upload URL and params (step 3 entry of
`UploadAttachment`): a missing/non-string `url` or missing/non-object
`params` aborts. -/
def uploadProceed (authResponse : List (String × Json)) : UploadNext :=
  match jlookup "url" authResponse with
  | some (.str u) =>
      match jlookup "params" authResponse with
      | some (.obj ps) => .proceed u ps
      | _ => .fail "missing upload params in auth response"
  | _ => .fail "missing upload URL in auth response"

/-- The existence short-circuit of `UploadAttachment` (write.go): if the
parsed authorization response has a numeric `exists` entry equal to 1,
the orchestrator skips steps 3 and 4 (no multipart form, no upload
request, no registration) and returns `c.Item(ctx, attachmentKey, nil)`
— the fetch of the already-created attachment item by its key, rendered
as `fetchExisting attachmentKey`.  Otherwise it proceeds to extract the
upload URL and params. -/
def afterAuthStep (attachmentKey : String) (authResponse : List (String × Json)) :
    UploadNext :=
  match jlookup "exists" authResponse with
  | some (.num n) =>
      if n = 1 then .fetchExisting attachmentKey
      else uploadProceed authResponse
  | _ => uploadProceed authResponse

/-- C3: whenever the authorization response body carries a numeric
`exists` flag equal to 1, the continuation is `fetchExisting` with the
attachment's key — no multipart upload request is constructed and the
orchestrator returns the fetched attachment item. -/
theorem uploadSkipWhenExists (attachmentKey : String)
    (authResponse : List (String × Json))
    (h : jlookup "exists" authResponse = some (.num 1)) :
    afterAuthStep attachmentKey authResponse = .fetchExisting attachmentKey := by
  unfold afterAuthStep
  rw [h]
  rfl

/-- C3 witness: the short-circuit at a concrete authorization
response. -/
theorem uploadSkipWhenExists_witness :
    afterAuthStep "ATTACH01" [("exists", Json.num 1)] = .fetchExisting "ATTACH01" :=
  uploadSkipWhenExists "ATTACH01" [("exists", Json.num 1)] rfl
